import Mathlib

/-!
Shallow embedding of the dmarc-monitoring ingestion pipeline
(`dmarc_parser.py` and `dmarc_storage.py`).

Python exceptions are modelled by `Except PyErr`; the process-wide
reverse-DNS cache `_rdns_records` is passed explicitly as state; the
network is an explicit oracle `DnsOracle`.  The sqlite database is a
quadruple of row lists; because the connection sets
`isolation_level = None` (autocommit), every successful INSERT is
committed immediately, so stateful operations return the committed
database together with an optional exception.
-/

/-- The Python exceptions that the embedded code can raise. -/
inductive PyErr where
  | attributeError
  | assertionError
  | valueError
  | integrityError
  | badZipFile
  | ioError
  | socketTimeout
  deriving Repr, DecidableEq

/-- Outcome of `socket.gethostbyaddr` on one IP address: a PTR record,
a host error (`socket.herror`), or a timeout (`socket.timeout`, which is
not a `socket.herror`). -/
inductive DnsOutcome where
  | found (hostname : String)
  | herror
  | timeout

/-- The network, as seen through `socket.gethostbyaddr`. -/
abbrev DnsOracle : Type := String → DnsOutcome

/-- The process-wide `_rdns_records` dict, as an association list. -/
abbrev RDNS : Type := List (String × String)

/-- Dict membership / lookup for `_rdns_records`. -/
def rdnsFind (cache : RDNS) (ip : String) : Option String :=
  match cache with
  | [] => none
  | (k, v) :: rest => if k == ip then some v else rdnsFind rest ip

/-- `_lookup_ip` (dmarc_parser.py lines 73-85): on a cache miss it calls
`socket.gethostbyaddr`; a successful resolution is cached and returned;
`socket.herror` is caught and `None` is returned (the failure is not
written to the cache); any other exception (such as a socket timeout)
propagates. -/
def _lookup_ip (cache : RDNS) (dns : DnsOracle) (ip : String) :
    Except PyErr (Option String) × RDNS :=
  match rdnsFind cache ip with
  | some h => (.ok (some h), cache)
  | none =>
    match dns ip with
    | .found h => (.ok (some h), cache ++ [(ip, h)])
    | .herror => (.ok none, cache)
    | .timeout => (.error .socketTimeout, cache)

/-! ### Python string primitives used by the source -/

/-- Helper for `basename`: scan the characters, restarting the
accumulator after every `/`. -/
def basenameAux : List Char → List Char → List Char
  | acc, [] => acc
  | _, '/' :: rest => basenameAux [] rest
  | acc, c :: rest => basenameAux (acc ++ [c]) rest

/-- Python `fname.split("/")[-1]`: the part of the path after the last
slash. -/
def basename (path : String) : String := ⟨basenameAux [] path.data⟩

/-- Python `str.endswith`. -/
def endswith (s suffix : String) : Bool := suffix.data.isSuffixOf s.data

/-- Helper for `pyReplace`; the fuel argument starts at the length of
the string and dominates it throughout. -/
def pyReplaceAux (pat rep : List Char) : Nat → List Char → List Char
  | _, [] => []
  | 0, l => l
  | fuel + 1, c :: cs =>
    if pat.isPrefixOf (c :: cs) && !pat.isEmpty then
      rep ++ pyReplaceAux pat rep fuel (List.drop pat.length (c :: cs))
    else
      c :: pyReplaceAux pat rep fuel cs

/-- Python `s.replace(pat, rep)`: replace every non-overlapping
occurrence of `pat`, scanning left to right (for a non-empty `pat`,
which is the only way the source uses it). -/
def pyReplace (s pat rep : String) : String :=
  ⟨pyReplaceAux pat.data rep.data s.data.length s.data⟩

/-- Python `int(...)` on the string content of an XML tag: an optional
sign followed by at least one digit. -/
def pyInt? (s : String) : Option Int :=
  let digits : List Char → Option Nat := fun l =>
    if l.isEmpty then none
    else if l.all Char.isDigit then
      some (l.foldl (fun n c => n * 10 + (c.toNat - '0'.toNat)) 0)
    else none
  match s.data with
  | '-' :: rest => (digits rest).map (fun n => -(n : Int))
  | '+' :: rest => (digits rest).map (fun n => (n : Int))
  | l => (digits l).map (fun n => (n : Int))

/-! ### The XML document model

`BeautifulSoup(..., features='xml')` turns the payload into a tree of
tags.  Attribute-style access `x.tag` is `find`: the first descendant
tag with that name in document order, or `None`; `find_all` collects
all such descendants; `.text` concatenates every string in the
subtree; the truthiness of a tag is the truthiness of `len(tag)`,
i.e. whether it has any contents. -/

mutual
inductive Xml where
  | mk (name : String) (text : String) (children : XmlList)
inductive XmlList where
  | nil
  | cons (head : Xml) (tail : XmlList)
end

/-- Convert a plain list of tags into the tree's child-sequence type. -/
def XmlList.ofList : List Xml → XmlList
  | [] => .nil
  | x :: l => .cons x (XmlList.ofList l)

/-- Convenient constructor for concrete documents. -/
def xml (name text : String) (children : List Xml) : Xml :=
  .mk name text (XmlList.ofList children)

def Xml.name : Xml → String
  | .mk n _ _ => n

def Xml.childList : Xml → XmlList
  | .mk _ _ c => c

def XmlList.isNil : XmlList → Bool
  | .nil => true
  | .cons _ _ => false

mutual
/-- First tag named `t` among the elements of `l` and their
descendants, in document order (`BeautifulSoup.find`). -/
def findInList : XmlList → String → Option Xml
  | .nil, _ => none
  | .cons c rest, t =>
    if c.name == t then some c
    else
      match findInChildren c t with
      | some r => some r
      | none => findInList rest t
/-- First tag named `t` strictly inside `x`, in document order. -/
def findInChildren : Xml → String → Option Xml
  | .mk _ _ cs, t => findInList cs t
end

/-- `x.find(t)` / attribute-style tag access on a tag. -/
def Xml.find (x : Xml) (t : String) : Option Xml := findInChildren x t

mutual
/-- All tags named `t` among the elements of `l` and their descendants,
in document order (`BeautifulSoup.find_all`). -/
def findAllList : XmlList → String → List Xml
  | .nil, _ => []
  | .cons c rest, t =>
    (if c.name == t then [c] else []) ++ findAllChildren c t ++ findAllList rest t
/-- All tags named `t` strictly inside `x`, in document order. -/
def findAllChildren : Xml → String → List Xml
  | .mk _ _ cs, t => findAllList cs t
end

/-- `x.find_all(t)`. -/
def Xml.findAll (x : Xml) (t : String) : List Xml := findAllChildren x t

mutual
/-- Concatenated text of a sequence of tags. -/
def getTextList : XmlList → String
  | .nil => ""
  | .cons c rest => Xml.getText c ++ getTextList rest
/-- `tag.text`. -/
def Xml.getText : Xml → String
  | .mk _ s cs => s ++ getTextList cs
end

/-- Python truthiness of a tag (`len(tag.contents) > 0`). -/
def Xml.toBool : Xml → Bool
  | .mk _ s cs => s != "" || !cs.isNil

/-- Attribute-style access `opt.tag`: raises `AttributeError` when
`opt` is `None`, otherwise searches. -/
def tagAttr : Option Xml → String → Except PyErr (Option Xml)
  | none, _ => .error .attributeError
  | some x, t => .ok (x.find t)

/-- `opt.text`: raises `AttributeError` when `opt` is `None`. -/
def tagText : Option Xml → Except PyErr String
  | none => .error .attributeError
  | some x => .ok x.getText


/-! ### The parsed record and report objects (`dmarc_parser.py`) -/

/-- One auth-results DKIM signature kept by the parser
(`dict(result=..., domain=..., selector=...)`). -/
structure DkimSig where
  result : String
  domain : String
  selector : Option String
  deriving Repr, DecidableEq

/-- The attributes a `DMARCRecord` object carries after `__init__`.
`spf_result = none` and `reason = none` model Python attributes that
were *never assigned* (the constructor assigns `self.auth_spf` in the
`except AttributeError:` handler instead of `self.spf_result`, and it
never assigns `self.reason` at all); reading such an attribute raises
`AttributeError`.  By contrast `spf_pass = none` and `host = none`
model an attribute whose value is Python `None`. -/
structure DMARCRecord where
  ip : String
  host : Option String
  disposition : String
  spf_pass : Option Bool
  dkim_pass : Bool
  header_from : Option String
  envelope_from : Option String
  count : Int
  spf_result : Option (String × String)
  dkim_signatures : List DkimSig
  reason : Option String
  deriving Repr, DecidableEq

/-- The body of the DKIM-signature loop (dmarc_parser.py lines 50-53):
`_result = str(dkim_sig.result.text)`, `_domain = str(dkim_sig.domain.text)`,
`_selector = str(dkim_sig.selector.text) if dkim_sig.selector is not None else None`. -/
def extractSig (dkim_sig : Xml) : Except PyErr DkimSig :=
  match tagText (dkim_sig.find "result") with
  | .error e => .error e
  | .ok r =>
    match tagText (dkim_sig.find "domain") with
    | .error e => .error e
    | .ok d =>
      let sel := (dkim_sig.find "selector").map Xml.getText
      .ok ⟨r, d, sel⟩

/-- The filter condition of dmarc_parser.py line 54:
`_result not in ["none", "neutral"] and _domain != "not.evaluated"`. -/
def keepSig (s : DkimSig) : Bool :=
  !(s.result == "none" || s.result == "neutral") && s.domain != "not.evaluated"

/-- The `for dkim_sig in xml_dkim_signatures:` loop (lines 50-55):
extract each signature, appending it only when `keepSig` holds; any
`AttributeError` raised while extracting propagates. -/
def buildSigs : List Xml → Except PyErr (List DkimSig)
  | [] => .ok []
  | t :: rest =>
    match extractSig t with
    | .error e => .error e
    | .ok s =>
      match buildSigs rest with
      | .error e => .error e
      | .ok tail => .ok (if keepSig s then s :: tail else tail)

/-- `DMARCRecord.__init__` after the single stateful call (`_lookup_ip`),
translated line by line; see `DMARCRecord.init` for the full constructor. -/
def DMARCRecord.initCore (ip : String) (host : Option String) (record_xml : Xml) :
    Except PyErr DMARCRecord :=
  -- self.disposition = str(record_xml.row.policy_evaluated.disposition.text)
  match tagAttr (record_xml.find "row") "policy_evaluated" with
  | .error e => .error e
  | .ok pe =>
  match tagAttr pe "disposition" with
  | .error e => .error e
  | .ok dispTag =>
  match tagText dispTag with
  | .error e => .error e
  | .ok disposition =>
  -- if record_xml.row.policy_evaluated.spf is not None: assert ... in ['pass','fail']
  match tagAttr pe "spf" with
  | .error e => .error e
  | .ok spfTag =>
  match
    (match spfTag with
     | some s =>
       if s.getText == "pass" || s.getText == "fail" then
         .ok (some (s.getText == "pass"))
       else .error .assertionError
     | none => .ok none : Except PyErr (Option Bool)) with
  | .error e => .error e
  | .ok spf_pass =>
  -- DKIM: assert in ['pass','fail'] when present; otherwise sanitise to False
  match tagAttr pe "dkim" with
  | .error e => .error e
  | .ok dkimTag =>
  match
    (match dkimTag with
     | some d =>
       if d.getText == "pass" || d.getText == "fail" then
         .ok (d.getText == "pass")
       else .error .assertionError
     | none => .ok false : Except PyErr Bool) with
  | .error e => .error e
  | .ok dkim_pass =>
  -- str(...header_from.text) if record_xml.identifiers.header_from else None
  match tagAttr (record_xml.find "identifiers") "header_from" with
  | .error e => .error e
  | .ok hfTag =>
  let header_from :=
    match hfTag with
    | some t => if t.toBool then some t.getText else none
    | none => none
  match tagAttr (record_xml.find "identifiers") "envelope_from" with
  | .error e => .error e
  | .ok efTag =>
  let envelope_from :=
    match efTag with
    | some t => if t.toBool then some t.getText else none
    | none => none
  -- self.count = int(record_xml.find('count').text)
  match tagText (record_xml.find "count") with
  | .error e => .error e
  | .ok countText =>
  match
    (match pyInt? countText with
     | some n => .ok n
     | none => .error .valueError : Except PyErr Int) with
  | .error e => .error e
  | .ok count =>
  -- try: self.spf_result = dict(domain=..., result=...)
  -- except AttributeError: self.auth_spf = None   (spf_result stays unassigned)
  let ar := record_xml.find "auth_results"
  let spf_result : Option (String × String) :=
    match
      (match tagAttr ar "spf" with
       | .error e => .error e
       | .ok spfT =>
         match tagAttr spfT "result" with
         | .error e => .error e
         | .ok resT =>
           match tagText resT with
           | .error e => .error e
           | .ok res =>
             match tagAttr spfT "domain" with
             | .error e => .error e
             | .ok domT =>
               match tagText domT with
               | .error e => .error e
               | .ok dom => .ok (dom, res) : Except PyErr (String × String)) with
    | .ok v => some v
    | .error _ => none
  -- xml_dkim_signatures = record_xml.auth_results.find_all("dkim") or []
  -- (attribute access on None raises; this one is not inside a try block)
  match
    (match ar with
     | none => .error .attributeError
     | some a => .ok (a.findAll "dkim") : Except PyErr (List Xml)) with
  | .error e => .error e
  | .ok sigTags =>
  match buildSigs sigTags with
  | .error e => .error e
  | .ok dkim_signatures =>
    .ok ⟨ip, host, disposition, spf_pass, dkim_pass, header_from, envelope_from,
         count, spf_result, dkim_signatures, none⟩

/-- `DMARCRecord.__init__(record_xml)` (dmarc_parser.py lines 20-55):
`self.ip = str(record_xml.find('source_ip').text)`, then
`self.host = _lookup_ip(self.ip)` (the only stateful step), then the
remaining pure assignments (`DMARCRecord.initCore`). -/
def DMARCRecord.init (rdns : RDNS) (dns : DnsOracle) (record_xml : Xml) :
    Except PyErr DMARCRecord × RDNS :=
  match tagText (record_xml.find "source_ip") with
  | .error e => (.error e, rdns)
  | .ok ip =>
    match _lookup_ip rdns dns ip with
    | (.error e, rdns') => (.error e, rdns')
    | (.ok host, rdns') => (DMARCRecord.initCore ip host record_xml, rdns')

/-- A `DMARCReport` object.  `start_date`/`end_date` hold the UTC epoch
seconds of the naive `datetime` objects the source builds with
`datetime.datetime.utcfromtimestamp`; `totimestamp` recovers exactly
this number. -/
structure DMARCReport where
  id : String
  filename : String
  receiver : String
  start_date : Int
  end_date : Int
  records : List DMARCRecord
  deriving Repr, DecidableEq

/-- `DMARCReport.__init__(filename, metadata_xml, policy_xml)`
(dmarc_parser.py lines 60-67); `policy_xml` is accepted and unused,
exactly as in the source. -/
def DMARCReport.init (filename : String) (metadata_xml _policy_xml : Option Xml) :
    Except PyErr DMARCReport :=
  match tagAttr metadata_xml "report_id" with
  | .error e => .error e
  | .ok idTag =>
  match tagText idTag with
  | .error e => .error e
  | .ok id =>
  match tagAttr metadata_xml "org_name" with
  | .error e => .error e
  | .ok orgTag =>
  match tagText orgTag with
  | .error e => .error e
  | .ok receiver =>
  match tagAttr metadata_xml "date_range" with
  | .error e => .error e
  | .ok date_range =>
  match tagAttr date_range "begin" with
  | .error e => .error e
  | .ok beginTag =>
  match tagText beginTag with
  | .error e => .error e
  | .ok beginText =>
  match
    (match pyInt? beginText with
     | some n => .ok n
     | none => .error .valueError : Except PyErr Int) with
  | .error e => .error e
  | .ok start_date =>
  match tagAttr date_range "end" with
  | .error e => .error e
  | .ok endTag =>
  match tagText endTag with
  | .error e => .error e
  | .ok endText =>
  match
    (match pyInt? endText with
     | some n => .ok n
     | none => .error .valueError : Except PyErr Int) with
  | .error e => .error e
  | .ok end_date => .ok ⟨id, filename, receiver, start_date, end_date, []⟩

/-- The `for r in records:` loop of `_process_xml` (lines 94-96):
construct a `DMARCRecord` for each record element (threading the rDNS
cache) and `report.add_record(record)` appends it. -/
def addRecords (dns : DnsOracle) : RDNS → DMARCReport → List Xml →
    Except PyErr DMARCReport × RDNS
  | rdns, report, [] => (.ok report, rdns)
  | rdns, report, r :: rest =>
    match DMARCRecord.init rdns dns r with
    | (.error e, rdns') => (.error e, rdns')
    | (.ok rec, rdns') =>
      addRecords dns rdns' { report with records := report.records ++ [rec] } rest

/-- `_process_xml(xml_file, report_filename)` (lines 88-97): build the
report object from the metadata block, then add a record for every
`record` element of the document. -/
def _process_xml (rdns : RDNS) (dns : DnsOracle) (xml_doc : Xml) (report_filename : String) :
    Except PyErr DMARCReport × RDNS :=
  match DMARCReport.init report_filename (xml_doc.find "report_metadata")
      (xml_doc.find "policy_published") with
  | .error e => (.error e, rdns)
  | .ok report => addRecords dns rdns report (xml_doc.findAll "record")

/-! ### Archive extraction (`_process_zipfile`, `_process_gzfile`)

A file on disk is abstracted by what the archive libraries can make of
its bytes: a zip archive with named members (each member's bytes are
represented by the XML tree BeautifulSoup parses them into), a gzip
archive with a single payload, or bytes neither library can decode. -/

inductive FileContent where
  | zipArchive (entries : List (String × Xml))
  | gzArchive (doc : Xml)
  | junk

/-- The member loop of `_process_zipfile` (lines 103-107): the first
member whose name ends in `.xml` is used, the rest are ignored. -/
def findXmlEntry : List (String × Xml) → Option Xml
  | [] => none
  | (name, doc) :: rest =>
    if endswith name ".xml" then some doc else findXmlEntry rest

/-- `_process_zipfile(fname)` (lines 100-107): `zipfile.ZipFile` raises
`BadZipfile` unless the bytes are a zip archive; otherwise the first
`.xml` member is parsed with the archive's basename as report filename,
and `None` is returned when no member qualifies. -/
def _process_zipfile (rdns : RDNS) (dns : DnsOracle) (fname : String)
    (content : FileContent) : Except PyErr (Option DMARCReport) × RDNS :=
  let archive_name := basename fname
  match content with
  | .zipArchive entries =>
    match findXmlEntry entries with
    | some doc =>
      match _process_xml rdns dns doc archive_name with
      | (.ok r, rdns') => (.ok (some r), rdns')
      | (.error e, rdns') => (.error e, rdns')
    | none => (.ok none, rdns)
  | _ => (.error .badZipFile, rdns)

/-- `_process_gzfile(fname)` (lines 110-116): the assumed inner name is
`archive_name.replace(".gz", "")`; only if it ends in `.xml` is the
archive opened at all (so undecodable bytes only matter in that case,
surfacing as an IOError when gzip reads them); the parsed report gets
the archive's basename as its filename.  When the derived name does not
end in `.xml` the function falls through and returns `None`. -/
def _process_gzfile (rdns : RDNS) (dns : DnsOracle) (fname : String)
    (content : FileContent) : Except PyErr (Option DMARCReport) × RDNS :=
  let archive_name := basename fname
  let subfile_name := pyReplace archive_name ".gz" ""
  if endswith subfile_name ".xml" then
    match content with
    | .gzArchive doc =>
      match _process_xml rdns dns doc archive_name with
      | (.ok r, rdns') => (.ok (some r), rdns')
      | (.error e, rdns') => (.error e, rdns')
    | _ => (.error .ioError, rdns)
  else (.ok none, rdns)

/-! ### The storage engine (`dmarc_storage.py`)

Row types mirror the four CREATE TABLE statements.  The connection has
`isolation_level = None` (autocommit, the source's own comment: "Set
automcommit to true"), so each successful INSERT is committed at once;
an operation that raises therefore leaves all its earlier INSERTs in
the database.  Primary-key and UNIQUE constraints are checked per
INSERT; the foreign keys of `save_new_report` are always satisfied
because parents are inserted first, so they are not re-checked here. -/

structure ReportRow where
  report_id : String
  receiver : String
  report_filename : String
  report_start : Int
  report_end : Int
  deriving Repr, DecidableEq

structure RecordRow where
  report_id : String
  record_id : Nat
  ip_address : String
  hostname : Option String
  disposition : String
  reason : Option String
  spf_pass : Option Bool
  dkim_pass : Bool
  header_from : Option String
  envelope_from : Option String
  count : Int
  deriving Repr, DecidableEq

structure SpfRow where
  report_id : String
  record_id : Nat
  domain : String
  result : String
  deriving Repr, DecidableEq

structure DkimRow where
  report_id : String
  record_id : Nat
  signature_id : Nat
  domain : String
  result : String
  selector : Option String
  deriving Repr, DecidableEq

structure DB where
  reports : List ReportRow
  records : List RecordRow
  spf_results : List SpfRow
  dkim_signatures : List DkimRow
  deriving Repr, DecidableEq

def DB.empty : DB := ⟨[], [], [], []⟩

/-- `report_already_exists(report_filename)` (dmarc_storage.py lines
95-99): membership test on the `report_filename` column. -/
def report_already_exists (db : DB) (report_filename : String) : Bool :=
  db.reports.any (fun r => r.report_filename == report_filename)

/-- The inner loop of `save_new_report` (lines 116-118): INSERT each
DKIM signature with a generated `signature_id`; the table's PRIMARY KEY
and its UNIQUE (report_id, record_id, domain, result, selector)
constraint can reject a row with an IntegrityError. -/
def insertDkimSigs (rid : String) (recId : Nat) :
    DB → Nat → List DkimSig → DB × Option PyErr
  | db, _, [] => (db, none)
  | db, sigId, sig :: rest =>
    if db.dkim_signatures.any (fun row =>
        row.report_id == rid && row.record_id == recId &&
          (row.signature_id == sigId ||
           (row.domain == sig.domain && row.result == sig.result &&
            row.selector == sig.selector))) then
      (db, some .integrityError)
    else
      insertDkimSigs rid recId
        { db with dkim_signatures :=
            db.dkim_signatures ++ [⟨rid, recId, sigId, sig.domain, sig.result, sig.selector⟩] }
        (sigId + 1) rest

/-- The record loop of `save_new_report` (lines 107-118).  Building the
parameter list of the record INSERT reads `rec.reason`, an attribute
`DMARCRecord.__init__` never assigns, which raises `AttributeError`
before the row is inserted; likewise the SPF INSERT reads
`rec.spf_result`, unassigned whenever the constructor took its
`except AttributeError` path. -/
def insertRecordRows (rid : String) :
    DB → Nat → List DMARCRecord → DB × Option PyErr
  | db, _, [] => (db, none)
  | db, recId, rec :: rest =>
    match rec.reason with
    | none => (db, some .attributeError)
    | some reasonVal =>
      if db.records.any (fun row => row.report_id == rid && row.record_id == recId) then
        (db, some .integrityError)
      else
        let db1 : DB :=
          { db with records :=
              db.records ++ [⟨rid, recId, rec.ip, rec.host, rec.disposition, some reasonVal,
                              rec.spf_pass, rec.dkim_pass, rec.header_from,
                              rec.envelope_from, rec.count⟩] }
        match rec.spf_result with
        | none => (db1, some .attributeError)
        | some (dom, res) =>
          if db1.spf_results.any (fun row => row.report_id == rid && row.record_id == recId) then
            (db1, some .integrityError)
          else
            let db2 : DB :=
              { db1 with spf_results := db1.spf_results ++ [⟨rid, recId, dom, res⟩] }
            match insertDkimSigs rid recId db2 0 rec.dkim_signatures with
            | (db3, some e) => (db3, some e)
            | (db3, none) => insertRecordRows rid db3 (recId + 1) rest

/-- The row `save_new_report` INSERTs into `dmarc_reports`. -/
def mkReportRow (report : DMARCReport) : ReportRow :=
  ⟨report.id, report.receiver, report.filename, report.start_date, report.end_date⟩

/-- `save_new_report(report)` (dmarc_storage.py lines 101-118): INSERT
the report row (PRIMARY KEY `report_id`), then each record with its SPF
result and DKIM signatures.  Autocommit: on an exception, everything
already INSERTed stays committed. -/
def save_new_report (db : DB) (report : DMARCReport) : DB × Option PyErr :=
  if db.reports.any (fun r => r.report_id == report.id) then
    (db, some .integrityError)
  else
    insertRecordRows report.id
      { db with reports := db.reports ++ [mkReportRow report] } 0 report.records

/-- `get_reporting_start_date` (lines 120-122): `SELECT
min(report_start)`; `none` models the NULL an empty table yields (on
which the source's `utcfromtimestamp` would raise). -/
def get_reporting_start_date (db : DB) : Option Int :=
  (db.reports.map (fun r => r.report_start)).min?

/-- `get_reporting_end_date` (lines 124-126): the source runs `SELECT
max(report_start)` — the start column, not the end column. -/
def get_reporting_end_date (db : DB) : Option Int :=
  (db.reports.map (fun r => r.report_start)).max?

/-- `get_number_reports` (lines 128-130). -/
def get_number_reports (db : DB) : Nat := db.reports.length

/-! ### The ingestion driver (`parse_reports_in_directory`) -/

/-- The driver's running state: the storage handle (autocommitted
database), the process-wide rDNS cache, the two counters, and the
exception that aborted the walk, if any. -/
structure RunState where
  db : DB
  rdns : RDNS
  n : Nat
  n_new : Nat
  err : Option PyErr
  deriving Repr, DecidableEq

/-- The extension dispatch of lines 130-134: `report = None;` then
`.zip` / `.gz` files go to their extractor (called on
`root + "/" + fname`), any other extension leaves `report` as `None`. -/
def parseFile (rdns : RDNS) (dns : DnsOracle) (root : String)
    (file : String × FileContent) : Except PyErr (Option DMARCReport) × RDNS :=
  if endswith file.1 ".zip" then _process_zipfile rdns dns (root ++ "/" ++ file.1) file.2
  else if endswith file.1 ".gz" then _process_gzfile rdns dns (root ++ "/" ++ file.1) file.2
  else (.ok none, rdns)

/-- One iteration of the `for fname in files:` loop (lines 124-138):
count the file; skip it when `report_already_exists(fname)`; otherwise
parse it and, if a report was produced, count it and save it.  An
exception anywhere is recorded in `err` (it aborts the walk: there is
no try/except in the source). -/
def processFile (root : String) (dns : DnsOracle) (st : RunState)
    (file : String × FileContent) : RunState :=
  let st := { st with n := st.n + 1 }
  if report_already_exists st.db file.1 then st
  else
    match parseFile st.rdns dns root file with
    | (.error e, rdns') => { st with rdns := rdns', err := some e }
    | (.ok none, rdns') => { st with rdns := rdns' }
    | (.ok (some report), rdns') =>
      let res := save_new_report st.db report
      { st with rdns := rdns', db := res.1, n_new := st.n_new + 1, err := res.2 }

/-- The file loop of `parse_reports_in_directory`: process files in
walk order, stopping at the first uncaught exception. -/
def runFiles (root : String) (dns : DnsOracle) : RunState →
    List (String × FileContent) → RunState
  | st, [] => st
  | st, f :: fs =>
    let st' := processFile root dns st f
    match st'.err with
    | some _ => st'
    | none => runFiles root dns st' fs

/-- `parse_reports_in_directory(persistent_storage, report_dir)`
(dmarc_parser.py lines 119-139).  The directory tree is abstracted as
the list of (filename, content) pairs `os.walk` yields, in walk order;
`root` is the directory each file lives in (so the extractors see the
path `root + "/" + fname`). -/
def parse_reports_in_directory (root : String) (dns : DnsOracle) (db : DB)
    (rdns : RDNS) (files : List (String × FileContent)) : RunState :=
  runFiles root dns ⟨db, rdns, 0, 0, none⟩ files


/-! ### Concrete inputs used by witnesses and counterexamples -/

/-- A network where no IP has a PTR record. -/
def dnsHerror : DnsOracle := fun _ => .herror

/-- A network where every lookup times out. -/
def dnsTimeout : DnsOracle := fun _ => .timeout

/-- A fully populated record element, shaped like a real DMARC report
record. -/
def xmlRec1 : Xml :=
  xml "record" ""
    [xml "row" ""
      [xml "source_ip" "192.0.2.1" [],
       xml "count" "3" [],
       xml "policy_evaluated" ""
         [xml "disposition" "none" [],
          xml "spf" "pass" [],
          xml "dkim" "pass" []]],
     xml "identifiers" "" [xml "header_from" "example.org" []],
     xml "auth_results" ""
       [xml "spf" "" [xml "domain" "example.org" [], xml "result" "pass" []],
        xml "dkim" ""
          [xml "domain" "example.org" [], xml "result" "pass" [],
           xml "selector" "sel1" []]]]

/-- A record element whose `policy_evaluated` block has no `dkim`
element (and whose auth-results carry no DKIM signatures). -/
def xmlRec3 : Xml :=
  xml "record" ""
    [xml "row" ""
      [xml "source_ip" "192.0.2.3" [],
       xml "count" "7" [],
       xml "policy_evaluated" ""
         [xml "disposition" "reject" [],
          xml "spf" "fail" []]],
     xml "identifiers" "" [xml "header_from" "example.org" []],
     xml "auth_results" ""
       [xml "spf" "" [xml "domain" "example.org" [], xml "result" "fail" []]]]

/-- A record element with five auth-results DKIM entries: results pass,
fail, none, neutral, and one with the sentinel domain `not.evaluated`. -/
def xmlRec4 : Xml :=
  xml "record" ""
    [xml "row" ""
      [xml "source_ip" "192.0.2.4" [],
       xml "count" "2" [],
       xml "policy_evaluated" ""
         [xml "disposition" "none" [],
          xml "spf" "pass" [],
          xml "dkim" "pass" []]],
     xml "identifiers" "" [xml "header_from" "example.org" []],
     xml "auth_results" ""
       [xml "spf" "" [xml "domain" "example.org" [], xml "result" "pass" []],
        xml "dkim" "" [xml "domain" "d1.example" [], xml "result" "pass" [],
                       xml "selector" "s1" []],
        xml "dkim" "" [xml "domain" "d2.example" [], xml "result" "fail" []],
        xml "dkim" "" [xml "domain" "d3.example" [], xml "result" "none" [],
                       xml "selector" "s3" []],
        xml "dkim" "" [xml "domain" "d4.example" [], xml "result" "neutral" []],
        xml "dkim" "" [xml "domain" "not.evaluated" [], xml "result" "pass" []]]]

/-- A record element whose auth-results block exists but contains no
SPF entry. -/
def xmlRec6 : Xml :=
  xml "record" ""
    [xml "row" ""
      [xml "source_ip" "192.0.2.6" [],
       xml "count" "1" [],
       xml "policy_evaluated" ""
         [xml "disposition" "none" [],
          xml "dkim" "fail" []]],
     xml "identifiers" "" [],
     xml "auth_results" ""
       [xml "dkim" "" [xml "domain" "d6.example" [], xml "result" "fail" []]]]

/-- A record element with no auth-results block at all. -/
def xmlNoAR : Xml :=
  xml "record" ""
    [xml "row" ""
      [xml "source_ip" "192.0.2.9" [],
       xml "count" "1" [],
       xml "policy_evaluated" ""
         [xml "disposition" "none" [],
          xml "spf" "pass" [],
          xml "dkim" "pass" []]],
     xml "identifiers" "" []]

/-- A whole report document with the given metadata and record
elements. -/
def reportDoc (rid org b e : String) (records : List Xml) : Xml :=
  xml "document" ""
    [xml "feedback" ""
      ([xml "report_metadata" ""
         [xml "org_name" org [],
          xml "report_id" rid [],
          xml "date_range" "" [xml "begin" b [], xml "end" e []]],
        xml "policy_published" "" []] ++ records)]

/-- A report document with no record elements (its report saves without
touching the buggy record INSERT). -/
def docEmptyA : Xml := reportDoc "RA" "org-a" "100" "200" []

/-- A second empty report document with a different id. -/
def docEmptyB : Xml := reportDoc "RB" "org-b" "300" "400" []


/-- The record the constructor builds from `xmlRec1` (host is `none`
because the lookup hits a host error). -/
def rec1 : DMARCRecord :=
  ⟨"192.0.2.1", none, "none", some true, true, some "example.org", none, 3,
   some ("example.org", "pass"), [⟨"pass", "example.org", some "sel1"⟩], none⟩

/-- The record built from `xmlRec3`: no policy-evaluated DKIM element,
so `dkim_pass` is sanitised to `false`. -/
def rec3 : DMARCRecord :=
  ⟨"192.0.2.3", none, "reject", some false, false, some "example.org", none, 7,
   some ("example.org", "fail"), [], none⟩

/-- The record built from `xmlRec4`: of its five DKIM entries only the
`pass` and `fail` ones with non-sentinel domains survive. -/
def rec4 : DMARCRecord :=
  ⟨"192.0.2.4", none, "none", some true, true, some "example.org", none, 2,
   some ("example.org", "pass"),
   [⟨"pass", "d1.example", some "s1"⟩, ⟨"fail", "d2.example", none⟩], none⟩

/-- The record built from `xmlRec6`: the `except AttributeError` path
left `spf_result` unassigned. -/
def rec6 : DMARCRecord :=
  ⟨"192.0.2.6", none, "none", none, false, none, none, 1, none,
   [⟨"fail", "d6.example", none⟩], none⟩

/-- A report carrying `rec1`. -/
def rpt1 : DMARCReport := ⟨"R1", "r1.zip", "org1", 100, 200, [rec1]⟩

/-- A report carrying `rec3`. -/
def rpt3 : DMARCReport := ⟨"R3", "r3.zip", "org3", 100, 200, [rec3]⟩

/-- What the database holds after `save_new_report DB.empty rpt1`
raises: the report row alone. -/
def db1after : DB := ⟨[mkReportRow rpt1], [], [], []⟩

/-- What the database holds after `save_new_report DB.empty rpt3`
raises: the report row alone. -/
def db3after : DB := ⟨[mkReportRow rpt3], [], [], []⟩


/-! ### Further concrete inputs for the claims about bugs -/

/-- A two-report table: report A spans instants 0..100, report B spans
50..60, so the latest end bound is 100 while the latest start is 50. -/
def db8 : DB :=
  ⟨[⟨"A", "orgA", "a.zip", 0, 100⟩, ⟨"B", "orgB", "b.zip", 50, 60⟩], [], [], []⟩

/-- A walk over an undecodable zip followed by a perfectly good gzip
report. -/
def files5 : List (String × FileContent) :=
  [("bad.zip", .junk), ("b.xml.gz", .gzArchive docEmptyB)]

/-- Modelled from the spec: "the inner name is derived by stripping the
`.gz` suffix from the archive filename" — remove one trailing `.gz`
when present (this is the spec's derivation, for comparison with the
source's `replace(".gz", "")`). -/
def inner_name_spec (archive_name : String) : String :=
  if endswith archive_name ".gz" then
    ⟨archive_name.data.take (archive_name.data.length - 3)⟩
  else archive_name

/-- An empty report document for the doubled-suffix gzip example. -/
def docEmptyG : Xml := reportDoc "RG" "org-g" "100" "200" []

/-- The report parsed out of `foo.xml.gz.gz`. -/
def rptG : DMARCReport := ⟨"RG", "foo.xml.gz.gz", "org-g", 100, 200, []⟩

/-! ### Claim theorems (concrete parts) -/

/-- C2 (counterexample): saving a report with one parser-built record
fails after the report row is committed; afterwards the reports table
still holds the row, `report_already_exists` answers `true` for the
filename, and no record rows exist — the claimed rollback does not
happen. -/
theorem save_leaves_report_row_behind :
    save_new_report DB.empty rpt1 = (db1after, some .attributeError) ∧
    report_already_exists db1after "r1.zip" = true ∧
    db1after.records = [] ∧ db1after.spf_results = [] ∧
    db1after.dkim_signatures = [] :=
  ⟨by decide, by decide, rfl, rfl, rfl⟩

/-- C3: a record whose XML omits the policy-evaluated DKIM element is
parsed with `dkim_pass = false` (the fail-closed half of the claim
holds), but the record is never persisted: `save_new_report` reads the
unassigned `reason` attribute and raises before inserting any record
row, leaving only the report row behind. -/
theorem dkim_fail_closed_never_persisted :
    DMARCRecord.init [] dnsHerror xmlRec3 = (.ok rec3, []) ∧
    rec3.dkim_pass = false ∧
    save_new_report DB.empty rpt3 = (db3after, some .attributeError) ∧
    db3after.records = [] :=
  ⟨rfl, rfl, by decide, rfl⟩

/-- C5 (counterexample): an undecodable zip archive aborts the whole
batch: the run stops with the extraction error after examining one
file, the following good report file is never ingested (the database
stays empty), although that same file ingests fine on its own. -/
theorem malformed_file_aborts_batch :
    (parse_reports_in_directory "reports" dnsHerror DB.empty [] files5).err =
      some .badZipFile ∧
    (parse_reports_in_directory "reports" dnsHerror DB.empty [] files5).n = 1 ∧
    (parse_reports_in_directory "reports" dnsHerror DB.empty [] files5).n_new = 0 ∧
    (parse_reports_in_directory "reports" dnsHerror DB.empty [] files5).db = DB.empty ∧
    (parse_reports_in_directory "reports" dnsHerror DB.empty []
        [("b.xml.gz", .gzArchive docEmptyB)]).db.reports.length = 1 := by
  refine ⟨by decide, by decide, by decide, by decide, by decide⟩

/-- C6 (counterexample): a record element whose auth-results block
contains no SPF entry does *not* make the constructor raise: the
`AttributeError` is caught and construction succeeds, with the
`spf_result` attribute left unassigned. -/
theorem missing_spf_constructor_succeeds :
    DMARCRecord.init [] dnsHerror xmlRec6 = (.ok rec6, []) ∧
    rec6.spf_result = none :=
  ⟨rfl, rfl⟩

/-- C7 (counterexample): a lookup that times out raises
`socket.timeout` past `_lookup_ip` (only `socket.herror` is caught);
and a no-PTR failure, though it returns the absent value, is not
written to the cache — the cache is unchanged, so the failure is not
cached. -/
theorem lookup_failure_raises_or_uncached :
    _lookup_ip [] dnsTimeout "192.0.2.7" = (.error .socketTimeout, []) ∧
    _lookup_ip [] dnsHerror "192.0.2.7" = (.ok none, []) :=
  ⟨rfl, rfl⟩

/-- C8: on a table whose latest report end instant is 100 but whose
latest start instant is 50, `get_reporting_start_date` returns the
minimum start as claimed, but `get_reporting_end_date` returns 50 — the
maximum of the *start* column — instead of the claimed maximum end
instant 100 (the source selects `max(report_start)`). -/
theorem reporting_end_date_uses_start_column :
    get_reporting_start_date db8 = some 0 ∧
    get_reporting_end_date db8 = some 50 ∧
    (db8.reports.map (fun r => r.report_end)).max? = some 100 := by
  refine ⟨by decide, by decide, by decide⟩

/-- C9 (counterexample): for the archive filename `foo.xml.gz.gz` the
spec's derivation (strip the `.gz` suffix) gives `foo.xml.gz`, which
does not end in `.xml`, so no report should be found; but the source's
`replace(".gz", "")` deletes both occurrences, giving `foo.xml`, and
the extractor parses a report out of the archive. -/
theorem gz_inner_name_not_suffix_strip :
    inner_name_spec "foo.xml.gz.gz" = "foo.xml.gz" ∧
    endswith "foo.xml.gz" ".xml" = false ∧
    pyReplace "foo.xml.gz.gz" ".gz" "" = "foo.xml" ∧
    _process_gzfile [] dnsHerror "reports/foo.xml.gz.gz" (.gzArchive docEmptyG) =
      (.ok (some rptG), []) :=
  ⟨by decide, by decide, by decide, rfl⟩


/-- C7: what the resolver actually guarantees.  On a cache miss, a
`socket.herror` (no PTR record) is caught: the resolver returns the
absent value without raising, but it does not cache the failure (the
cache is returned unchanged, so the IP will be looked up again); a
timeout is not caught and propagates past the resolver; a cache hit is
answered from the cache. -/
theorem lookup_ip_failure_behaviour :
    (∀ (cache : RDNS) (dns : DnsOracle) (ip : String),
        rdnsFind cache ip = none → dns ip = .herror →
        _lookup_ip cache dns ip = (.ok none, cache)) ∧
    (∀ (cache : RDNS) (dns : DnsOracle) (ip : String),
        rdnsFind cache ip = none → dns ip = .timeout →
        _lookup_ip cache dns ip = (.error .socketTimeout, cache)) ∧
    (∀ (cache : RDNS) (dns : DnsOracle) (ip h : String),
        rdnsFind cache ip = some h →
        _lookup_ip cache dns ip = (.ok (some h), cache)) := by
  refine ⟨?_, ?_, ?_⟩
  · intro cache dns ip h1 h2
    unfold _lookup_ip
    rw [h1, h2]
  · intro cache dns ip h1 h2
    unfold _lookup_ip
    rw [h1, h2]
  · intro cache dns ip h h1
    unfold _lookup_ip
    rw [h1]

/-- Witness for `lookup_ip_failure_behaviour` at concrete inputs. -/
theorem lookup_ip_failure_behaviour_witness :
    _lookup_ip [("10.0.0.1", "host.example")] dnsHerror "192.0.2.8" =
      (.ok none, [("10.0.0.1", "host.example")]) ∧
    _lookup_ip [] dnsTimeout "192.0.2.8" = (.error .socketTimeout, []) ∧
    _lookup_ip [("10.0.0.1", "host.example")] dnsTimeout "10.0.0.1" =
      (.ok (some "host.example"), [("10.0.0.1", "host.example")]) :=
  ⟨lookup_ip_failure_behaviour.1 _ _ _ (by decide) rfl,
   lookup_ip_failure_behaviour.2.1 _ _ _ rfl rfl,
   lookup_ip_failure_behaviour.2.2 _ _ _ _ (by decide)⟩

/-- C5: what the driver actually does with a file whose processing
raises: the walk stops right there — the run's outcome over the whole
list equals the outcome of processing the failing file, the remaining
files are never examined, and (since the summary line is only reached
after the loop) no counts are reported for the aborted batch. -/
theorem uncaught_error_stops_walk (root : String) (dns : DnsOracle) (st : RunState)
    (f : String × FileContent) (fs : List (String × FileContent)) (e : PyErr)
    (h : (processFile root dns st f).err = some e) :
    runFiles root dns st (f :: fs) = processFile root dns st f := by
  unfold runFiles
  simp only [h]

/-- Witness for `uncaught_error_stops_walk`: the undecodable
`bad.zip` stops the walk before `b.xml.gz`. -/
theorem uncaught_error_stops_walk_witness :
    runFiles "reports" dnsHerror ⟨DB.empty, [], 0, 0, none⟩
        [("bad.zip", FileContent.junk), ("b.xml.gz", FileContent.gzArchive docEmptyB)] =
      processFile "reports" dnsHerror ⟨DB.empty, [], 0, 0, none⟩ ("bad.zip", FileContent.junk) :=
  uncaught_error_stops_walk "reports" dnsHerror ⟨DB.empty, [], 0, 0, none⟩
    ("bad.zip", FileContent.junk) [("b.xml.gz", FileContent.gzArchive docEmptyB)]
    .badZipFile (by decide)

/-! ### Lemmas tracing the parser's constructors -/

/-- `DMARCReport.__init__` stores its `filename` argument unchanged. -/
theorem DMARCReport.init_filename {fn : String} {m p : Option Xml} {rpt : DMARCReport}
    (h : DMARCReport.init fn m p = .ok rpt) : rpt.filename = fn := by
  unfold DMARCReport.init at h
  repeat' split at h
  all_goals injection h
  subst_vars
  rfl

/-- `add_record` never changes the report's filename. -/
theorem addRecords_filename {dns : DnsOracle} :
    ∀ (l : List Xml) (rdns : RDNS) (report r : DMARCReport) (rdns2 : RDNS),
      addRecords dns rdns report l = (.ok r, rdns2) → r.filename = report.filename := by
  intro l
  induction l with
  | nil =>
    intro rdns report r rdns2 h
    unfold addRecords at h
    injection h with h1 h2
    injection h1 with h1
    subst h1
    rfl
  | cons x rest ih =>
    intro rdns report r rdns2 h
    unfold addRecords at h
    split at h
    · injection h with h1
      injection h1
    · have h2 := ih _ _ _ _ h
      exact h2

/-- `_process_xml` produces a report carrying the supplied filename. -/
theorem _process_xml_filename {rdns : RDNS} {dns : DnsOracle} {doc : Xml}
    {fn : String} {r : DMARCReport} {rdns2 : RDNS}
    (h : _process_xml rdns dns doc fn = (.ok r, rdns2)) : r.filename = fn := by
  unfold _process_xml at h
  split at h
  · injection h with h1
    injection h1
  case _ report heq =>
    rw [addRecords_filename _ _ _ _ _ h]
    exact DMARCReport.init_filename heq


/-- A successful `DMARCRecord.__init__` is a successful `initCore`. -/
theorem DMARCRecord.init_ok {rdns rdns' : RDNS} {dns : DnsOracle} {x : Xml}
    {rec : DMARCRecord} (h : DMARCRecord.init rdns dns x = (.ok rec, rdns')) :
    ∃ ip host, DMARCRecord.initCore ip host x = .ok rec := by
  unfold DMARCRecord.init at h
  split at h
  · injection h with h1 h2
    injection h1
  · split at h
    · injection h with h1 h2
      injection h1
    · injection h with h1 h2
      exact ⟨_, _, h1⟩

/-- The constructor never assigns `self.reason`. -/
theorem DMARCRecord.initCore_reason_none {ip : String} {host : Option String}
    {x : Xml} {rec : DMARCRecord} (h : DMARCRecord.initCore ip host x = .ok rec) :
    rec.reason = none := by
  simp only [DMARCRecord.initCore] at h
  repeat' split at h
  all_goals injection h
  all_goals subst_vars
  all_goals rfl

/-- Without an `auth_results` block the constructor raises (the
`find_all` access on `None` at dmarc_parser.py line 48 is outside any
try block; earlier failures also raise). -/
theorem DMARCRecord.initCore_error_of_no_ar {ip : String} {host : Option String}
    {x : Xml} (hfind : x.find "auth_results" = none) :
    ∃ e, DMARCRecord.initCore ip host x = .error e := by
  unfold DMARCRecord.initCore
  simp only [hfind, tagAttr]
  repeat' split
  all_goals exact ⟨_, rfl⟩

/-- When the auth-results block exists but has no SPF entry, a
successful construction leaves `spf_result` unassigned (the handler
assigns the misnamed `auth_spf` instead). -/
theorem DMARCRecord.initCore_spf_result_none {ip : String} {host : Option String}
    {x ar : Xml} {rec : DMARCRecord} (har : x.find "auth_results" = some ar)
    (hspf : ar.find "spf" = none) (h : DMARCRecord.initCore ip host x = .ok rec) :
    rec.spf_result = none := by
  simp only [DMARCRecord.initCore, har, tagAttr, hspf] at h
  repeat' split at h
  all_goals injection h
  all_goals subst_vars
  all_goals rfl

/-- A successful construction parses its DKIM signatures out of the
auth-results block with `buildSigs`. -/
theorem DMARCRecord.initCore_dkim_sigs {ip : String} {host : Option String}
    {x ar : Xml} {rec : DMARCRecord} (har : x.find "auth_results" = some ar)
    (h : DMARCRecord.initCore ip host x = .ok rec) :
    buildSigs (ar.findAll "dkim") = .ok rec.dkim_signatures := by
  simp only [DMARCRecord.initCore, har, tagAttr] at h
  repeat' split at h
  all_goals injection h
  all_goals subst_vars
  all_goals assumption

/-- A successful construction implies the auth-results block exists. -/
theorem DMARCRecord.initCore_auth_results {ip : String} {host : Option String}
    {x : Xml} {rec : DMARCRecord} (h : DMARCRecord.initCore ip host x = .ok rec) :
    ∃ ar, x.find "auth_results" = some ar := by
  cases hfind : x.find "auth_results" with
  | none =>
    obtain ⟨e, he⟩ := @DMARCRecord.initCore_error_of_no_ar ip host x hfind
    rw [he] at h
    injection h
  | some a => exact ⟨a, rfl⟩


/-- `DMARCRecord.__init__` raising when the record has no auth-results
block (lifted to the full constructor). -/
theorem DMARCRecord.init_error_of_no_ar {rdns : RDNS} {dns : DnsOracle} {x : Xml}
    (hfind : x.find "auth_results" = none) :
    ∃ e, (DMARCRecord.init rdns dns x).1 = .error e := by
  unfold DMARCRecord.init
  split
  · exact ⟨_, rfl⟩
  · split
    · exact ⟨_, rfl⟩
    · exact DMARCRecord.initCore_error_of_no_ar hfind

/-- Any record produced by the constructor has no `reason` attribute. -/
theorem DMARCRecord.init_reason_none {rdns rdns' : RDNS} {dns : DnsOracle} {x : Xml}
    {rec : DMARCRecord} (h : DMARCRecord.init rdns dns x = (.ok rec, rdns')) :
    rec.reason = none := by
  obtain ⟨ip, host, hc⟩ := DMARCRecord.init_ok h
  exact DMARCRecord.initCore_reason_none hc

/-- Saving a report whose first record lacks the `reason` attribute:
the report row is INSERTed and committed, then the record INSERT's
parameter list raises `AttributeError`, leaving exactly the report row
behind (shared by the claims about atomicity and about the unassigned
attribute). -/
theorem save_first_reason_unassigned (db : DB) (report : DMARCReport)
    (rec : DMARCRecord) (rest : List DMARCRecord)
    (hrecs : report.records = rec :: rest)
    (hreason : rec.reason = none)
    (hpk : (db.reports.any fun r => r.report_id == report.id) = false) :
    save_new_report db report =
      ({ db with reports := db.reports ++ [mkReportRow report] },
       some .attributeError) := by
  unfold save_new_report
  rw [hpk, hrecs]
  simp only [Bool.false_eq_true, if_false, insertRecordRows, hreason]

/-- C6: what actually happens when SPF auth-results data is absent.
When the auth-results block exists but contains no SPF entry, the
constructor does not raise: the `AttributeError` is caught and the
record completes with its `spf_result` attribute left unassigned (the
handler assigns the misnamed `auth_spf` instead).  Only when the whole
auth-results block is absent does the constructor raise (at the DKIM
`find_all` access). -/
theorem missing_spf_auth_results_behaviour :
    (∀ (rdns rdns' : RDNS) (dns : DnsOracle) (x ar : Xml) (rec : DMARCRecord),
        x.find "auth_results" = some ar → ar.find "spf" = none →
        DMARCRecord.init rdns dns x = (.ok rec, rdns') → rec.spf_result = none) ∧
    (∀ (rdns : RDNS) (dns : DnsOracle) (x : Xml),
        x.find "auth_results" = none →
        ∃ e, (DMARCRecord.init rdns dns x).1 = .error e) := by
  constructor
  · intro rdns rdns' dns x ar rec har hspf h
    obtain ⟨ip, host, hc⟩ := DMARCRecord.init_ok h
    exact DMARCRecord.initCore_spf_result_none har hspf hc
  · intro rdns dns x hfind
    exact DMARCRecord.init_error_of_no_ar hfind

/-- The auth-results block of `xmlRec6`. -/
def ar6 : Xml :=
  xml "auth_results" ""
    [xml "dkim" "" [xml "domain" "d6.example" [], xml "result" "fail" []]]

/-- Witness for `missing_spf_auth_results_behaviour` at the concrete
records `xmlRec6` (block present, no SPF) and `xmlNoAR` (no block). -/
theorem missing_spf_auth_results_behaviour_witness :
    rec6.spf_result = none ∧
    ∃ e, (DMARCRecord.init [] dnsHerror xmlNoAR).1 = .error e :=
  ⟨missing_spf_auth_results_behaviour.1 [] [] dnsHerror xmlRec6 ar6 rec6 rfl rfl rfl,
   missing_spf_auth_results_behaviour.2 [] dnsHerror xmlNoAR rfl⟩

/-- C2: what the storage engine actually guarantees — no atomicity.
The connection autocommits each INSERT, so when saving fails after the
report row (as it does for every report whose records come from the
parser, via the unassigned `reason` attribute), the report row stays
committed and `report_already_exists` answers `true` for the filename
even though no record data exists. -/
theorem save_new_report_not_atomic (db : DB) (report : DMARCReport)
    (rec : DMARCRecord) (rest : List DMARCRecord)
    (hrecs : report.records = rec :: rest)
    (hreason : rec.reason = none)
    (hpk : (db.reports.any fun r => r.report_id == report.id) = false) :
    save_new_report db report =
      ({ db with reports := db.reports ++ [mkReportRow report] },
       some .attributeError) ∧
    report_already_exists (save_new_report db report).1 report.filename = true := by
  have hsave := save_first_reason_unassigned db report rec rest hrecs hreason hpk
  refine ⟨hsave, ?_⟩
  rw [hsave]
  simp [report_already_exists, List.any_append, mkReportRow]

/-- Witness for `save_new_report_not_atomic`: after the failed save of
`rpt1` into an empty store, `report_already_exists` answers `true`. -/
theorem save_new_report_not_atomic_witness :
    report_already_exists (save_new_report DB.empty rpt1).1 rpt1.filename = true :=
  (save_new_report_not_atomic DB.empty rpt1 rec1 [] rfl rfl (by decide)).2

/-- C10: for every report whose records were built by the parser's
constructor (which never assigns `self.reason`), `save_new_report`
raises `AttributeError` while building the first record INSERT, and —
the connection being in autocommit mode — the already-inserted report
row remains in the reports table. -/
theorem save_reads_unassigned_reason (db : DB) (report : DMARCReport)
    (rec : DMARCRecord) (rest : List DMARCRecord)
    (hrecs : report.records = rec :: rest)
    (hctor : ∀ r ∈ report.records,
        ∃ (rdns rdns' : RDNS) (dns : DnsOracle) (x : Xml),
          DMARCRecord.init rdns dns x = (.ok r, rdns'))
    (hpk : (db.reports.any fun r => r.report_id == report.id) = false) :
    save_new_report db report =
      ({ db with reports := db.reports ++ [mkReportRow report] },
       some .attributeError) := by
  have hmem : rec ∈ report.records := by
    rw [hrecs]
    exact List.mem_cons_self _ _
  obtain ⟨rdns, rdns', dns, x, hx⟩ := hctor rec hmem
  exact save_first_reason_unassigned db report rec rest hrecs
    (DMARCRecord.init_reason_none hx) hpk

/-- Witness for `save_reads_unassigned_reason` on `rpt1`: the save
fails with `AttributeError` and leaves exactly the report row. -/
theorem save_reads_unassigned_reason_witness :
    save_new_report DB.empty rpt1 = (db1after, some .attributeError) := by
  refine save_reads_unassigned_reason DB.empty rpt1 rec1 [] rfl ?_ (by decide)
  intro r hr
  have hr1 : r = rec1 := by simpa [rpt1] using hr
  subst hr1
  exact ⟨[], [], dnsHerror, xmlRec1, rfl⟩

/-- C9: what the gzip extractor actually does.  The inner name is
`archive_name.replace(".gz", "")` — every occurrence of `.gz` deleted,
which coincides with stripping the suffix only when `.gz` occurs
nowhere else.  If the derived name does not end in `.xml` the extractor
yields no report and touches nothing; otherwise the decompressed
document is parsed into a report whose filename is the archive's own
basename. -/
theorem process_gzfile_replace_behaviour (rdns : RDNS) (dns : DnsOracle)
    (fname : String) (c : FileContent) :
    (endswith (pyReplace (basename fname) ".gz" "") ".xml" = false →
      _process_gzfile rdns dns fname c = (.ok none, rdns)) ∧
    (∀ (doc : Xml) (report : DMARCReport) (rdns2 : RDNS),
      c = .gzArchive doc →
      endswith (pyReplace (basename fname) ".gz" "") ".xml" = true →
      _process_xml rdns dns doc (basename fname) = (.ok report, rdns2) →
      _process_gzfile rdns dns fname c = (.ok (some report), rdns2) ∧
        report.filename = basename fname) := by
  constructor
  · intro hn
    unfold _process_gzfile
    simp only [hn, Bool.false_eq_true, if_false]
  · intro doc report rdns2 hc hy hx
    subst hc
    refine ⟨?_, _process_xml_filename hx⟩
    unfold _process_gzfile
    simp only [hy, if_true, hx]

/-- The report parsed out of `a.xml.gz`. -/
def rptA : DMARCReport := ⟨"RA", "a.xml.gz", "org-a", 100, 200, []⟩

/-- Witness for `process_gzfile_replace_behaviour` on a non-`.xml`
derived name and on a well-formed `a.xml.gz`. -/
theorem process_gzfile_replace_behaviour_witness :
    _process_gzfile [] dnsHerror "reports/nonxml.gz" FileContent.junk = (.ok none, []) ∧
    _process_gzfile [] dnsHerror "reports/a.xml.gz" (.gzArchive docEmptyA) =
        (.ok (some rptA), []) ∧
    rptA.filename = "a.xml.gz" := by
  have h1 := (process_gzfile_replace_behaviour [] dnsHerror "reports/nonxml.gz"
      FileContent.junk).1 (by decide)
  have h2 := (process_gzfile_replace_behaviour [] dnsHerror "reports/a.xml.gz"
      (.gzArchive docEmptyA)).2 docEmptyA rptA [] rfl (by decide) rfl
  exact ⟨h1, h2.1, h2.2⟩


/-- The unfiltered extraction of every auth-results DKIM entry (the
loop of dmarc_parser.py lines 50-53 without the line-54 filter); used
to state exactly which entries the filter keeps. -/
def extractAllSigs : List Xml → Except PyErr (List DkimSig)
  | [] => .ok []
  | t :: rest =>
    match extractSig t with
    | .error e => .error e
    | .ok s =>
      match extractAllSigs rest with
      | .error e => .error e
      | .ok tail => .ok (s :: tail)

/-- The parser's signature loop is the unfiltered extraction followed
by the `keepSig` filter. -/
theorem buildSigs_filter : ∀ {ts : List Xml} {sigs : List DkimSig},
    buildSigs ts = .ok sigs →
    ∃ raws, extractAllSigs ts = .ok raws ∧ sigs = raws.filter keepSig := by
  intro ts
  induction ts with
  | nil =>
    intro sigs h
    injection h with h1
    exact ⟨[], rfl, h1.symm⟩
  | cons t rest ih =>
    intro sigs h
    unfold buildSigs at h
    split at h
    · injection h
    next s heq =>
      split at h
      · injection h
      next tail heq2 =>
        injection h with h1
        obtain ⟨raws, hmap, hfilt⟩ := ih heq2
        refine ⟨s :: raws, ?_, ?_⟩
        · simp only [extractAllSigs, heq, hmap]
        · rw [← h1, hfilt, List.filter_cons]

/-- Every DKIM row `insertDkimSigs` adds comes from the supplied
signature list. -/
theorem insertDkimSigs_mem (rid : String) (recId : Nat) :
    ∀ (sigs : List DkimSig) (db : DB) (sigId : Nat) (row : DkimRow),
      row ∈ (insertDkimSigs rid recId db sigId sigs).1.dkim_signatures →
      row ∈ db.dkim_signatures ∨
        ∃ s ∈ sigs, row.domain = s.domain ∧ row.result = s.result ∧
          row.selector = s.selector := by
  intro sigs
  induction sigs with
  | nil => intro db sigId row h; exact Or.inl h
  | cons s rest ih =>
    intro db sigId row h
    unfold insertDkimSigs at h
    split at h
    · exact Or.inl h
    · have h2 := ih _ _ _ h
      rcases h2 with h2 | ⟨s2, hs2, hf⟩
      · have h2' : row ∈ db.dkim_signatures ++
            [(⟨rid, recId, sigId, s.domain, s.result, s.selector⟩ : DkimRow)] := h2
        rcases List.mem_append.mp h2' with h3 | h3
        · exact Or.inl h3
        · have h4 : row = ⟨rid, recId, sigId, s.domain, s.result, s.selector⟩ := by
            simpa using h3
          subst h4
          exact Or.inr ⟨s, List.mem_cons_self _ _, rfl, rfl, rfl⟩
      · exact Or.inr ⟨s2, List.mem_cons_of_mem _ hs2, hf⟩

/-- Every DKIM row the record loop adds comes from some record's
`dkim_signatures` list. -/
theorem insertRecordRows_dkim_mem (rid : String) :
    ∀ (recs : List DMARCRecord) (db : DB) (recId : Nat) (row : DkimRow),
      row ∈ (insertRecordRows rid db recId recs).1.dkim_signatures →
      row ∈ db.dkim_signatures ∨
        ∃ r ∈ recs, ∃ s ∈ r.dkim_signatures,
          row.domain = s.domain ∧ row.result = s.result ∧
            row.selector = s.selector := by
  intro recs
  induction recs with
  | nil => intro db recId row h; exact Or.inl h
  | cons rec rest ih =>
    intro db recId row h
    simp only [insertRecordRows] at h
    split at h
    · exact Or.inl h
    · split at h
      · exact Or.inl h
      · split at h
        · exact Or.inl h
        · split at h
          · exact Or.inl h
          · split at h
            next db3 e heq =>
              rw [← heq] at h
              rcases insertDkimSigs_mem rid recId _ _ _ _ h with h2 | ⟨s, hs, hf⟩
              · exact Or.inl h2
              · exact Or.inr ⟨rec, List.mem_cons_self _ _, s, hs, hf⟩
            next db3 heq =>
              have hd : _ = db3 := congrArg Prod.fst heq
              rw [← hd] at h
              rcases ih _ _ _ h with h2 | ⟨r, hr, s, hs, hf⟩
              · rcases insertDkimSigs_mem rid recId _ _ _ _ h2 with h3 | ⟨s, hs, hf⟩
                · exact Or.inl h3
                · exact Or.inr ⟨rec, List.mem_cons_self _ _, s, hs, hf⟩
              · exact Or.inr ⟨r, List.mem_cons_of_mem _ hr, s, hs, hf⟩

/-- Every DKIM row `save_new_report` adds comes from some record of the
report. -/
theorem save_new_report_dkim_mem (db : DB) (report : DMARCReport) (row : DkimRow)
    (h : row ∈ (save_new_report db report).1.dkim_signatures) :
    row ∈ db.dkim_signatures ∨
      ∃ r ∈ report.records, ∃ s ∈ r.dkim_signatures,
        row.domain = s.domain ∧ row.result = s.result ∧
          row.selector = s.selector := by
  unfold save_new_report at h
  split at h
  · exact Or.inl h
  · have h2 := insertRecordRows_dkim_mem report.id report.records
      { db with reports := db.reports ++ [mkReportRow report] } 0 row h
    exact h2

/-- C4: exactly the auth-results DKIM entries whose result is neither
`none` nor `neutral` and whose domain is not the sentinel
`not.evaluated` are kept by the parser (with their domain, result and
nullable selector, in document order); every other entry is dropped;
and any DKIM row persisted by `save_new_report` originates from a
record's kept-signature list, so dropped entries are never persisted. -/
theorem dkim_signature_filter (rdns rdns' : RDNS) (dns : DnsOracle) (x : Xml)
    (rec : DMARCRecord) (h : DMARCRecord.init rdns dns x = (.ok rec, rdns')) :
    (∃ ar raws, x.find "auth_results" = some ar ∧
        extractAllSigs (ar.findAll "dkim") = .ok raws ∧
        rec.dkim_signatures = raws.filter keepSig ∧
        ∀ s : DkimSig, s ∈ rec.dkim_signatures ↔ s ∈ raws ∧ keepSig s = true) ∧
    (∀ (db : DB) (report : DMARCReport) (row : DkimRow),
        row ∈ (save_new_report db report).1.dkim_signatures →
        row ∈ db.dkim_signatures ∨
          ∃ r ∈ report.records, ∃ s ∈ r.dkim_signatures,
            row.domain = s.domain ∧ row.result = s.result ∧
              row.selector = s.selector) := by
  constructor
  · obtain ⟨ip, host, hc⟩ := DMARCRecord.init_ok h
    obtain ⟨ar, har⟩ := DMARCRecord.initCore_auth_results hc
    have hb := DMARCRecord.initCore_dkim_sigs har hc
    obtain ⟨raws, hmap, hfilt⟩ := buildSigs_filter hb
    refine ⟨ar, raws, har, hmap, hfilt, ?_⟩
    intro s
    rw [hfilt]
    exact List.mem_filter
  · intro db report row hrow
    exact save_new_report_dkim_mem db report row hrow

/-- Witness for `dkim_signature_filter` on `xmlRec4` (signatures with
results pass, fail, none, neutral and a `not.evaluated` domain): only
the pass and fail entries with real domains are kept. -/
theorem dkim_signature_filter_witness :
    rec4.dkim_signatures =
      [⟨"pass", "d1.example", some "s1"⟩, ⟨"fail", "d2.example", none⟩] ∧
    (∃ ar raws, xmlRec4.find "auth_results" = some ar ∧
        extractAllSigs (ar.findAll "dkim") = .ok raws ∧
        rec4.dkim_signatures = raws.filter keepSig ∧
        ∀ s : DkimSig, s ∈ rec4.dkim_signatures ↔ s ∈ raws ∧ keepSig s = true) :=
  ⟨by decide, (dkim_signature_filter [] [] dnsHerror xmlRec4 rec4 rfl).1⟩


/-! ### Idempotency of the ingestion driver -/

/-- The DKIM loop never touches the reports table. -/
theorem insertDkimSigs_reports (rid : String) (recId : Nat) :
    ∀ (sigs : List DkimSig) (db : DB) (sigId : Nat),
      (insertDkimSigs rid recId db sigId sigs).1.reports = db.reports := by
  intro sigs
  induction sigs with
  | nil => intro db sigId; rfl
  | cons s rest ih =>
    intro db sigId
    unfold insertDkimSigs
    split
    · rfl
    · exact ih _ _

/-- The record loop never touches the reports table. -/
theorem insertRecordRows_reports (rid : String) :
    ∀ (recs : List DMARCRecord) (db : DB) (recId : Nat),
      (insertRecordRows rid db recId recs).1.reports = db.reports := by
  intro recs
  induction recs with
  | nil => intro db recId; rfl
  | cons rec rest ih =>
    intro db recId
    simp only [insertRecordRows]
    split
    · rfl
    · split
      · rfl
      · split
        · rfl
        · split
          · rfl
          · split
            next db3 e heq =>
              have hd : _ = db3 := congrArg Prod.fst heq
              show db3.reports = db.reports
              rw [← hd]
              exact insertDkimSigs_reports rid recId _ _ _
            next db3 heq =>
              have hd : _ = db3 := congrArg Prod.fst heq
              rw [ih db3 (recId + 1), ← hd]
              exact insertDkimSigs_reports rid recId _ _ _

/-- `save_new_report` only ever appends to the reports table. -/
theorem save_new_report_reports (db : DB) (report : DMARCReport) :
    ∃ t, (save_new_report db report).1.reports = db.reports ++ t := by
  unfold save_new_report
  split
  · exact ⟨[], (List.append_nil _).symm⟩
  · exact ⟨[mkReportRow report], insertRecordRows_reports _ _ _ _⟩

/-- A save that raised no exception put the report's filename into the
reports table (the report row is the very first INSERT). -/
theorem save_new_report_ok_exists (db : DB) (report : DMARCReport)
    (h : (save_new_report db report).2 = none) :
    report_already_exists (save_new_report db report).1 report.filename = true := by
  unfold save_new_report at h ⊢
  by_cases hc : (db.reports.any fun r => r.report_id == report.id) = true
  · rw [if_pos hc] at h
    simp at h
  · rw [if_neg hc] at h ⊢
    unfold report_already_exists
    rw [insertRecordRows_reports]
    simp [List.any_append, mkReportRow]

/-- Growing the reports table preserves `report_already_exists`. -/
theorem report_already_exists_append {db db2 : DB} {f : String} {t : List ReportRow}
    (h : report_already_exists db f = true) (hl : db2.reports = db.reports ++ t) :
    report_already_exists db2 f = true := by
  unfold report_already_exists at h ⊢
  rw [hl, List.any_append, h]
  rfl

/-- One driver step only ever appends to the reports table. -/
theorem processFile_db_reports (root : String) (dns : DnsOracle) (st : RunState)
    (f : String × FileContent) :
    ∃ t, (processFile root dns st f).db.reports = st.db.reports ++ t := by
  simp only [processFile]
  split
  · exact ⟨[], (List.append_nil _).symm⟩
  · split
    · exact ⟨[], (List.append_nil _).symm⟩
    · exact ⟨[], (List.append_nil _).symm⟩
    · exact save_new_report_reports _ _

/-- The whole walk only ever appends to the reports table. -/
theorem runFiles_db_reports (root : String) (dns : DnsOracle) :
    ∀ (fs : List (String × FileContent)) (st : RunState),
      ∃ t, (runFiles root dns st fs).db.reports = st.db.reports ++ t := by
  intro fs
  induction fs with
  | nil => intro st; exact ⟨[], (List.append_nil _).symm⟩
  | cons f rest ih =>
    intro st
    simp only [runFiles]
    split
    · exact processFile_db_reports root dns st f
    · obtain ⟨t1, h1⟩ := processFile_db_reports root dns st f
      obtain ⟨t2, h2⟩ := ih (processFile root dns st f)
      exact ⟨t1 ++ t2, by rw [h2, h1, List.append_assoc]⟩

/-- Whether `_process_zipfile` answers "no report found" depends only
on the file, not on the rDNS cache: when it does, it changes nothing
and answers the same from any cache. -/
theorem _process_zipfile_ok_none {rdns rdns1 : RDNS} {dns : DnsOracle}
    {path : String} {c : FileContent}
    (h : _process_zipfile rdns dns path c = (.ok none, rdns1)) :
    ∀ rdns2, _process_zipfile rdns2 dns path c = (.ok none, rdns2) := by
  intro rdns2
  cases c with
  | zipArchive entries =>
    simp only [_process_zipfile] at h ⊢
    split at h
    next doc hf =>
      split at h
      · injection h with h1 h2
        injection h1 with h1
        injection h1
      · injection h with h1 h2
        injection h1
    next hf =>
      rfl
  | gzArchive doc =>
    simp only [_process_zipfile] at h
    injection h with h1 h2
    injection h1
  | junk =>
    simp only [_process_zipfile] at h
    injection h with h1 h2
    injection h1

/-- Same for `_process_gzfile`. -/
theorem _process_gzfile_ok_none {rdns rdns1 : RDNS} {dns : DnsOracle}
    {path : String} {c : FileContent}
    (h : _process_gzfile rdns dns path c = (.ok none, rdns1)) :
    ∀ rdns2, _process_gzfile rdns2 dns path c = (.ok none, rdns2) := by
  intro rdns2
  cases c with
  | gzArchive doc =>
    simp only [_process_gzfile] at h ⊢
    by_cases hc : endswith (pyReplace (basename path) ".gz" "") ".xml" = true
    · rw [if_pos hc] at h
      split at h
      · injection h with h1 h2
        injection h1 with h1
        injection h1
      · injection h with h1 h2
        injection h1
    · rw [if_neg hc]
  | zipArchive entries =>
    simp only [_process_gzfile] at h ⊢
    by_cases hc : endswith (pyReplace (basename path) ".gz" "") ".xml" = true
    · rw [if_pos hc] at h
      injection h with h1 h2
      injection h1
    · rw [if_neg hc]
  | junk =>
    simp only [_process_gzfile] at h ⊢
    by_cases hc : endswith (pyReplace (basename path) ".gz" "") ".xml" = true
    · rw [if_pos hc] at h
      injection h with h1 h2
      injection h1
    · rw [if_neg hc]

/-- Same for the driver's extension dispatch. -/
theorem parseFile_ok_none {rdns rdns1 : RDNS} {dns : DnsOracle} {root : String}
    {f : String × FileContent}
    (h : parseFile rdns dns root f = (.ok none, rdns1)) :
    ∀ rdns2, parseFile rdns2 dns root f = (.ok none, rdns2) := by
  intro rdns2
  unfold parseFile at h ⊢
  by_cases h1 : endswith f.1 ".zip" = true
  · rw [if_pos h1] at h ⊢
    exact _process_zipfile_ok_none h rdns2
  · rw [if_neg h1] at h ⊢
    by_cases h2 : endswith f.1 ".gz" = true
    · rw [if_pos h2] at h ⊢
      exact _process_gzfile_ok_none h rdns2
    · rw [if_neg h2]

/-- A report extracted from a zip file carries the archive's basename. -/
theorem _process_zipfile_some_filename {rdns rdns2 : RDNS} {dns : DnsOracle}
    {path : String} {c : FileContent} {r : DMARCReport}
    (h : _process_zipfile rdns dns path c = (.ok (some r), rdns2)) :
    r.filename = basename path := by
  cases c with
  | zipArchive entries =>
    simp only [_process_zipfile] at h
    split at h
    · split at h
      next r' rdns' heq =>
        injection h with h1 h2
        injection h1 with h1
        injection h1 with h1
        subst h1
        exact _process_xml_filename heq
      next e rdns' heq =>
        injection h with h1 h2
        injection h1
    · injection h with h1 h2
      injection h1 with h1
      injection h1
  | gzArchive doc =>
    simp only [_process_zipfile] at h
    injection h with h1 h2
    injection h1
  | junk =>
    simp only [_process_zipfile] at h
    injection h with h1 h2
    injection h1

/-- A report extracted from a gzip file carries the archive's basename. -/
theorem _process_gzfile_some_filename {rdns rdns2 : RDNS} {dns : DnsOracle}
    {path : String} {c : FileContent} {r : DMARCReport}
    (h : _process_gzfile rdns dns path c = (.ok (some r), rdns2)) :
    r.filename = basename path := by
  cases c with
  | gzArchive doc =>
    simp only [_process_gzfile] at h
    by_cases hc : endswith (pyReplace (basename path) ".gz" "") ".xml" = true
    · rw [if_pos hc] at h
      split at h
      next r' rdns' heq =>
        injection h with h1 h2
        injection h1 with h1
        injection h1 with h1
        subst h1
        exact _process_xml_filename heq
      next e rdns' heq =>
        injection h with h1 h2
        injection h1
    · rw [if_neg hc] at h
      injection h with h1 h2
      injection h1 with h1
      injection h1
  | zipArchive entries =>
    simp only [_process_gzfile] at h
    by_cases hc : endswith (pyReplace (basename path) ".gz" "") ".xml" = true
    · rw [if_pos hc] at h
      injection h with h1 h2
      injection h1
    · rw [if_neg hc] at h
      injection h with h1 h2
      injection h1 with h1
      injection h1
  | junk =>
    simp only [_process_gzfile] at h
    by_cases hc : endswith (pyReplace (basename path) ".gz" "") ".xml" = true
    · rw [if_pos hc] at h
      injection h with h1 h2
      injection h1
    · rw [if_neg hc] at h
      injection h with h1 h2
      injection h1 with h1
      injection h1

/-- A parsed report's filename is the basename of the path the driver
passed down. -/
theorem parseFile_some_filename {rdns rdns2 : RDNS} {dns : DnsOracle}
    {root : String} {f : String × FileContent} {r : DMARCReport}
    (h : parseFile rdns dns root f = (.ok (some r), rdns2)) :
    r.filename = basename (root ++ "/" ++ f.1) := by
  unfold parseFile at h
  by_cases h1 : endswith f.1 ".zip" = true
  · rw [if_pos h1] at h
    exact _process_zipfile_some_filename h
  · rw [if_neg h1] at h
    by_cases h2 : endswith f.1 ".gz" = true
    · rw [if_pos h2] at h
      exact _process_gzfile_some_filename h
    · rw [if_neg h2] at h
      injection h with h1' h2'
      injection h1' with h1'
      injection h1'

/-- A file is settled for a database when the driver will not insert
anything for it: its filename is already recorded, or parsing it
yields no report (which depends only on the file). -/
def Settled (root : String) (dns : DnsOracle) (db : DB)
    (f : String × FileContent) : Prop :=
  report_already_exists db f.1 = true ∨
    ∀ rdns, parseFile rdns dns root f = (.ok none, rdns)

/-- Settledness survives appending to the reports table. -/
theorem Settled.append {root : String} {dns : DnsOracle} {db db2 : DB}
    {f : String × FileContent} {t : List ReportRow} (h : Settled root dns db f)
    (hl : db2.reports = db.reports ++ t) : Settled root dns db2 f := by
  rcases h with h | h
  · exact Or.inl (report_already_exists_append h hl)
  · exact Or.inr h


/-- A step of a run that raised nothing leaves its file settled: either
the file was already recorded (and the database is untouched), or
parsing found no report (a property of the file alone), or the save
committed the report row carrying the file's basename. -/
theorem processFile_settles {root : String} {dns : DnsOracle} {st : RunState}
    {f : String × FileContent}
    (hbn : basename (root ++ "/" ++ f.1) = f.1)
    (h : (processFile root dns st f).err = none) :
    Settled root dns (processFile root dns st f).db f := by
  by_cases hex : report_already_exists st.db f.1 = true
  · have hdb : (processFile root dns st f).db = st.db := by
      simp [processFile, hex]
    rw [hdb]
    exact Or.inl hex
  · have hex' : report_already_exists st.db f.1 = false := by
      cases hb : report_already_exists st.db f.1
      · rfl
      · exact absurd hb hex
    rcases hpe : parseFile st.rdns dns root f with ⟨res, rdns1⟩
    cases res with
    | error e =>
      have herr : (processFile root dns st f).err = some e := by
        simp [processFile, hex', hpe]
      rw [herr] at h
      simp at h
    | ok o =>
      cases o with
      | none =>
        have hdb : (processFile root dns st f).db = st.db := by
          simp [processFile, hex', hpe]
        rw [hdb]
        exact Or.inr (parseFile_ok_none hpe)
      | some report =>
        have hdb : (processFile root dns st f).db = (save_new_report st.db report).1 := by
          simp [processFile, hex', hpe]
        have herr : (processFile root dns st f).err = (save_new_report st.db report).2 := by
          simp [processFile, hex', hpe]
        rw [herr] at h
        have hsv := save_new_report_ok_exists st.db report h
        have hfn : report.filename = f.1 := (parseFile_some_filename hpe).trans hbn
        rw [hdb]
        rw [hfn] at hsv
        exact Or.inl hsv

/-- After a completed (exception-free) run, every file of the walk is
settled for the resulting database. -/
theorem runFiles_settles {root : String} {dns : DnsOracle} :
    ∀ (fs : List (String × FileContent)) (st : RunState),
      (∀ f ∈ fs, basename (root ++ "/" ++ f.1) = f.1) →
      (runFiles root dns st fs).err = none →
      ∀ f ∈ fs, Settled root dns (runFiles root dns st fs).db f := by
  intro fs
  induction fs with
  | nil =>
    intro st hbn h f hf
    exact absurd hf (List.not_mem_nil f)
  | cons g gs ih =>
    intro st hbn h f hf
    rcases herr : (processFile root dns st g).err with _ | e
    · have hrun : runFiles root dns st (g :: gs) =
          runFiles root dns (processFile root dns st g) gs := by
        simp [runFiles, herr]
      rw [hrun] at h ⊢
      rcases List.mem_cons.mp hf with rfl | hf2
      · have hs := processFile_settles (hbn f (List.mem_cons_self f gs)) herr
        obtain ⟨t, ht⟩ := runFiles_db_reports root dns gs (processFile root dns st f)
        exact hs.append ht
      · exact ih (processFile root dns st g)
          (fun f2 hf2' => hbn f2 (List.mem_cons_of_mem g hf2')) h f hf2
    · have hrun : runFiles root dns st (g :: gs) = processFile root dns st g := by
        simp [runFiles, herr]
      rw [hrun, herr] at h
      simp at h

/-- Processing a settled file does nothing but count it. -/
theorem processFile_settled {root : String} {dns : DnsOracle} {st : RunState}
    {f : String × FileContent} (hset : Settled root dns st.db f) :
    processFile root dns st f = { st with n := st.n + 1 } := by
  by_cases hex : report_already_exists st.db f.1 = true
  · simp [processFile, hex]
  · have hex' : report_already_exists st.db f.1 = false := by
      cases hb : report_already_exists st.db f.1
      · rfl
      · exact absurd hb hex
    rcases hset with hs | hs
    · exact absurd hs hex
    · simp [processFile, hex', hs st.rdns]

/-- Running over settled files only counts them: the database, the
rDNS cache, the new-report counter and the error state are untouched. -/
theorem runFiles_settled {root : String} {dns : DnsOracle} :
    ∀ (fs : List (String × FileContent)) (st : RunState),
      st.err = none →
      (∀ f ∈ fs, Settled root dns st.db f) →
      runFiles root dns st fs = { st with n := st.n + fs.length } := by
  intro fs
  induction fs with
  | nil =>
    intro st herr hset
    simp [runFiles]
  | cons g gs ih =>
    intro st herr hset
    have hpg : processFile root dns st g = { st with n := st.n + 1 } :=
      processFile_settled (hset g (List.mem_cons_self g gs))
    have hrun : runFiles root dns st (g :: gs) =
        runFiles root dns { st with n := st.n + 1 } gs := by
      simp [runFiles, hpg, herr]
    rw [hrun]
    have h2 := ih { st with n := st.n + 1 } herr
      (fun f hf => hset f (List.mem_cons_of_mem g hf))
    rw [h2]
    have hn : st.n + 1 + gs.length = st.n + (g :: gs).length := by
      rw [List.length_cons]
      omega
    rw [hn]

/-- C1: the ingestion driver is idempotent.  If a run over a directory
completes without an exception, running it again over the unchanged
directory changes nothing: every file is either skipped by the
filename check before any extraction or parsing (so the rDNS cache is
not even consulted) or yields no report, the database (hence every
aggregate query result) is exactly the database after the first run,
zero new reports are saved, and all files are counted. -/
theorem ingestion_idempotent (root : String) (dns : DnsOracle) (db : DB)
    (rdns : RDNS) (files : List (String × FileContent))
    (hbn : ∀ f ∈ files, basename (root ++ "/" ++ f.1) = f.1)
    (h1 : (parse_reports_in_directory root dns db rdns files).err = none) :
    parse_reports_in_directory root dns
        (parse_reports_in_directory root dns db rdns files).db
        (parse_reports_in_directory root dns db rdns files).rdns files =
      ⟨(parse_reports_in_directory root dns db rdns files).db,
       (parse_reports_in_directory root dns db rdns files).rdns,
       files.length, 0, none⟩ := by
  have hset := runFiles_settles files ⟨db, rdns, 0, 0, none⟩ hbn h1
  have h2 := runFiles_settled files
      ⟨(parse_reports_in_directory root dns db rdns files).db,
       (parse_reports_in_directory root dns db rdns files).rdns, 0, 0, none⟩
      rfl (fun f hf => hset f hf)
  simp only [parse_reports_in_directory] at h2 ⊢
  rw [h2]
  rw [Nat.zero_add]

/-- Witness for `ingestion_idempotent`: one good gzip report file,
ingested from an empty store; the second run changes nothing and
counts the single file. -/
theorem ingestion_idempotent_witness :
    (∀ f ∈ [("a.xml.gz", FileContent.gzArchive docEmptyA)],
        basename ("reports" ++ "/" ++ f.1) = f.1) ∧
    (parse_reports_in_directory "reports" dnsHerror DB.empty []
        [("a.xml.gz", FileContent.gzArchive docEmptyA)]).err = none ∧
    parse_reports_in_directory "reports" dnsHerror
        (parse_reports_in_directory "reports" dnsHerror DB.empty []
          [("a.xml.gz", FileContent.gzArchive docEmptyA)]).db
        (parse_reports_in_directory "reports" dnsHerror DB.empty []
          [("a.xml.gz", FileContent.gzArchive docEmptyA)]).rdns
        [("a.xml.gz", FileContent.gzArchive docEmptyA)] =
      ⟨(parse_reports_in_directory "reports" dnsHerror DB.empty []
          [("a.xml.gz", FileContent.gzArchive docEmptyA)]).db,
       (parse_reports_in_directory "reports" dnsHerror DB.empty []
          [("a.xml.gz", FileContent.gzArchive docEmptyA)]).rdns,
       1, 0, none⟩ :=
  ⟨by decide, by decide,
   ingestion_idempotent "reports" dnsHerror DB.empty []
     [("a.xml.gz", FileContent.gzArchive docEmptyA)] (by decide) (by decide)⟩
